import Mathlib

/-!
Verification of the coult Vault client library (Rust) against its
natural-language specification, by a shallow embedding of the five source
files (src/client.rs, src/error.rs, src/schema.rs, src/config.rs,
src/lib.rs) into Lean 4.

HTTP status codes are modelled as natural numbers; JSON documents as an
inductive value type; fallible Rust code (including panics raised by
expect/unwrap during builder resolution) as Except values; the HTTP
transport as an explicit response (status code and body) supplied to each
operation, together with the list of requests the operation emits.
-/

namespace Coult

/-- Embedding of the error enum VaultError from src/error.rs.
Each variant carries the HTTP status code, as in the source. -/
inductive VaultError where
  | VaultSealed (status : Nat)
  | VaultNotInitialized (status : Nat)
  | VaultStandby (status : Nat)
  | VaultActiveDRsecondaryNode (status : Nat)
  | VaultStandbyPerformanceNode (status : Nat)
  | VaultInvalidPath (status : Nat)
  | Unknown (status : Nat)
deriving DecidableEq, Repr

/-- The status code carried by a VaultError value (the StatusCode argument
of every variant in src/error.rs). -/
def VaultError.status : VaultError → Nat
  | .VaultSealed s => s
  | .VaultNotInitialized s => s
  | .VaultStandby s => s
  | .VaultActiveDRsecondaryNode s => s
  | .VaultStandbyPerformanceNode s => s
  | .VaultInvalidPath s => s
  | .Unknown s => s

/-- Embedding of check_vault_error (src/client.rs lines 266-305): the match
on status_code.as_u16, in source order 200, 503, 429, 472, 473, 404, 501,
wildcard. -/
def check_vault_error (status_code : Nat) : Except VaultError Unit :=
  if status_code = 200 then Except.ok ()
  else if status_code = 503 then Except.error (VaultError.VaultSealed status_code)
  else if status_code = 429 then Except.error (VaultError.VaultSealed status_code)
  else if status_code = 472 then Except.error (VaultError.VaultActiveDRsecondaryNode status_code)
  else if status_code = 473 then Except.error (VaultError.VaultStandbyPerformanceNode status_code)
  else if status_code = 404 then Except.error (VaultError.VaultInvalidPath status_code)
  else if status_code = 501 then Except.error (VaultError.VaultNotInitialized status_code)
  else Except.error (VaultError.Unknown status_code)

/-- JSON values, as produced by serde_json from a response body. Numbers are
modelled as integers (the envelope fields the source declares only use
integral numbers). -/
inductive Json where
  | null
  | bool (b : Bool)
  | num (n : Int)
  | str (s : String)
  | obj (fields : List (String × Json))

/-- Field lookup in a JSON value: the named member of an object, if any. -/
def Json.getField (j : Json) (k : String) : Option Json :=
  match j with
  | .obj fs => fs.lookup k
  | _ => none

/-- serde deserialization of a String field: the value must be a JSON string. -/
def asString : Option Json → Option String
  | some (Json.str s) => some s
  | _ => none

/-- serde deserialization of a bool field: the value must be a JSON boolean. -/
def asBool : Option Json → Option Bool
  | some (Json.bool b) => some b
  | _ => none

/-- serde deserialization of a u32 field: the value must be an integral
number in the range of a 32-bit unsigned integer. -/
def asU32 : Option Json → Option Nat
  | some (Json.num n) => if 0 ≤ n ∧ n < 4294967296 then some n.toNat else none
  | _ => none

/-- serde deserialization of an Option String field: an absent member or a
JSON null yields None, a JSON string yields Some, anything else fails. -/
def asOptString : Option Json → Option (Option String)
  | none => some none
  | some Json.null => some none
  | some (Json.str s) => some (some s)
  | _ => none

/-- Embedding of the struct VaultSchemaV1 of src/schema.rs (the KV version-1
response envelope). -/
structure VaultSchemaV1 (T : Type) where
  request_id : String
  lease_id : String
  renewable : Bool
  lease_duration : Nat
  data : T
  wrap_info : Option String
  warnings : Option String
  auth : Option String
deriving DecidableEq, Repr

/-- Embedding of the struct Data of src/schema.rs (the inner wrapper of the
KV version-2 envelope). -/
structure Data (T : Type) where
  data : T
deriving DecidableEq, Repr

/-- Embedding of the struct VaultSchemaV2 of src/schema.rs (the KV version-2
response envelope, whose data field is itself a Data wrapper). -/
structure VaultSchemaV2 (T : Type) where
  request_id : String
  lease_id : String
  renewable : Bool
  lease_duration : Nat
  data : Data T
  wrap_info : Option String
  warnings : Option String
  auth : Option String
deriving DecidableEq, Repr

/-- The serde-derived Deserialize instance for VaultSchemaV1, given a
deserializer pT for the caller payload type T: every non-Option field must
be present with the declared type; Option fields default to None when
absent; unknown members are ignored (the serde default). -/
def deserializeV1 {T : Type} (pT : Json → Option T) (j : Json) :
    Option (VaultSchemaV1 T) := do
  let request_id ← asString (j.getField "request_id")
  let lease_id ← asString (j.getField "lease_id")
  let renewable ← asBool (j.getField "renewable")
  let lease_duration ← asU32 (j.getField "lease_duration")
  let d ← j.getField "data"
  let data ← pT d
  let wrap_info ← asOptString (j.getField "wrap_info")
  let warnings ← asOptString (j.getField "warnings")
  let auth ← asOptString (j.getField "auth")
  pure ⟨request_id, lease_id, renewable, lease_duration, data, wrap_info, warnings, auth⟩

/-- The serde-derived Deserialize instance for the Data wrapper. -/
def deserializeData {T : Type} (pT : Json → Option T) (j : Json) :
    Option (Data T) := do
  let d ← j.getField "data"
  let data ← pT d
  pure ⟨data⟩

/-- The serde-derived Deserialize instance for VaultSchemaV2: as for v1, but
the data field deserializes through the Data wrapper. -/
def deserializeV2 {T : Type} (pT : Json → Option T) (j : Json) :
    Option (VaultSchemaV2 T) := do
  let request_id ← asString (j.getField "request_id")
  let lease_id ← asString (j.getField "lease_id")
  let renewable ← asBool (j.getField "renewable")
  let lease_duration ← asU32 (j.getField "lease_duration")
  let d ← j.getField "data"
  let data ← deserializeData pT d
  let wrap_info ← asOptString (j.getField "wrap_info")
  let warnings ← asOptString (j.getField "warnings")
  let auth ← asOptString (j.getField "auth")
  pure ⟨request_id, lease_id, renewable, lease_duration, data, wrap_info, warnings, auth⟩

/-- Errors a secret-retrieval call can return: a Vault-protocol error from
the status-code mapping, or a serde deserialization failure (the two are
distinct error sources in get_secret). -/
inductive SecretError where
  | vault (e : VaultError)
  | deserialization
deriving DecidableEq, Repr

/-- Embedding of Vault::get_secret (src/client.rs lines 207-234): the
response is a status code and a body; the status is mapped first by
check_vault_error, and only on success is the body deserialized as the v1
envelope, of which the inner data payload is returned. -/
def get_secret {T : Type} (pT : Json → Option T) (status : Nat) (body : Json) :
    Except SecretError T :=
  match check_vault_error status with
  | .error e => .error (.vault e)
  | .ok () =>
    match deserializeV1 pT body with
    | some s => .ok s.data
    | none => .error .deserialization

/-- Embedding of Vault::get_secret_v2 (src/client.rs lines 236-263): as
get_secret, but deserializing the v2 envelope and returning the
doubly-nested data.data payload. -/
def get_secret_v2 {T : Type} (pT : Json → Option T) (status : Nat) (body : Json) :
    Except SecretError T :=
  match check_vault_error status with
  | .error e => .error (.vault e)
  | .ok () =>
    match deserializeV2 pT body with
    | some s => .ok s.data.data
    | none => .error .deserialization

/-- Embedding of the struct VaultBuilder of src/client.rs: the five optional
fields set by the fluent setters before build is called. The explicit port
setter takes a 16-bit value, so an explicitly supplied port is already a
number below 65536. -/
structure VaultBuilder where
  secret_path : Option String
  address : Option String
  port : Option Nat
  token : Option String
  protocol : Option String
deriving DecidableEq, Repr

/-- The process environment as read by build: the value of each of the five
VAULT_* variables, None when unset. -/
structure Env where
  vault_secret_path : Option String
  vault_address : Option String
  vault_port : Option String
  vault_token : Option String
  vault_protocol : Option String
deriving DecidableEq, Repr

/-- The outcomes on which build aborts before returning a client: the three
configuration failures (the expect and unwrap panics of src/client.rs lines
82-95 and 97-98, each with its own diagnostic), and a failed health check
carrying the mapped VaultError. -/
inductive BuildError where
  | missingSecretPath
  | missingToken
  | invalidPort (s : String)
  | health (e : VaultError)
deriving DecidableEq, Repr

/-- Whether a build failure is a configuration failure (raised during field
resolution) as opposed to a health-check failure. -/
def BuildError.isConfig : BuildError → Bool
  | .missingSecretPath => true
  | .missingToken => true
  | .invalidPort _ => true
  | .health _ => false

/-- The diagnostic attached to each build failure: for the configuration
failures, the panic messages of src/client.rs lines 83, 94 and 98. -/
def BuildError.message : BuildError → String
  | .missingSecretPath => "Set secret_path or VAULT_SECRET_PATH"
  | .missingToken => "Set token or VAULT_TOKEN env"
  | .invalidPort s => String.append "invalid digit or out of range u16: " s
  | .health e => VaultError.status e |> toString

/-- Rust u16 FromStr parsing: an optional leading plus sign, then one or
more ASCII decimal digits, with the value below 65536. -/
def parseU16 (s : String) : Option Nat :=
  let cs :=
    match s.data with
    | '+' :: rest => rest
    | cs => cs
  if cs = [] then none
  else if cs.all Char.isDigit then
    let n := cs.foldl (fun acc c => acc * 10 + (c.toNat - 48)) 0
    if n < 65536 then some n else none
  else none

/-- The fully resolved configuration held by a built Vault client (the
non-optional content of the Vault struct fields of src/client.rs). -/
structure Config where
  secret_path : String
  address : String
  port : Nat
  token : String
  protocol : String
deriving DecidableEq, Repr

/-- Resolution of secret_path (src/client.rs lines 82-84): explicit value,
else VAULT_SECRET_PATH, else the expect panic. -/
def resolveSecretPath (b : VaultBuilder) (env : Env) : Except BuildError String :=
  match b.secret_path with
  | some s => .ok s
  | none =>
    match env.vault_secret_path with
    | some s => .ok s
    | none => .error .missingSecretPath

/-- Resolution of port (src/client.rs lines 90-95): explicit value, else
VAULT_PORT defaulted to "8200" then parsed as u16, the unwrap panicking on
a parse failure. -/
def resolvePort (b : VaultBuilder) (env : Env) : Except BuildError Nat :=
  match b.port with
  | some p => .ok p
  | none =>
    match parseU16 ((env.vault_port).getD "8200") with
    | some p => .ok p
    | none => .error (.invalidPort ((env.vault_port).getD "8200"))

/-- Resolution of token (src/client.rs lines 97-98): explicit value, else
VAULT_TOKEN, else the expect panic. -/
def resolveToken (b : VaultBuilder) (env : Env) : Except BuildError String :=
  match b.token with
  | some t => .ok t
  | none =>
    match env.vault_token with
    | some t => .ok t
    | none => .error .missingToken

/-- The configuration-resolution phase of VaultBuilder::build (src/client.rs
lines 82-102): each field takes the explicit value if supplied, else its
environment variable, else its default; address defaults to "127.0.0.1",
port to 8200 and protocol to "http"; secret_path and token have no default
and abort the build when absent from both sources. -/
def resolve (b : VaultBuilder) (env : Env) : Except BuildError Config :=
  match resolveSecretPath b env with
  | .error e => .error e
  | .ok sp =>
    match resolvePort b env with
    | .error e => .error e
    | .ok port =>
      match resolveToken b env with
      | .error e => .error e
      | .ok tok =>
        .ok ⟨sp, (b.address).getD ((env.vault_address).getD "127.0.0.1"), port, tok,
             (b.protocol).getD ((env.vault_protocol).getD "http")⟩

/-- An outbound HTTP request as the client builds one: GET with the two
headers of src/client.rs, no body. -/
structure Request where
  method : String
  uri : String
  headers : List (String × String)
deriving DecidableEq, Repr

/-- The request both operations build: GET, content-type and X-Vault-Token
headers, empty body. -/
def mkRequest (uri token : String) : Request :=
  ⟨"GET", uri, [("content-type", "application/json"), ("X-Vault-Token", token)]⟩

/-- The health-check URI of src/client.rs lines 188-194. -/
def healthUri (cfg : Config) : String :=
  cfg.protocol ++ "://" ++ cfg.address ++ ":" ++ toString cfg.port ++ "/v1/sys/health"

/-- The secret-retrieval URI of src/client.rs lines 211-218. -/
def secretUri (cfg : Config) : String :=
  cfg.protocol ++ "://" ++ cfg.address ++ ":" ++ toString cfg.port ++ "/v1/" ++ cfg.secret_path

/-- Embedding of Vault::health_check (src/client.rs lines 187-205): send the
health request and map the response status through check_vault_error. -/
def health_check (status : Nat) : Except VaultError Unit :=
  check_vault_error status

/-- Embedding of VaultBuilder::build (src/client.rs lines 81-132): resolve
the configuration, then perform the health check against /v1/sys/health,
aborting on any non-200 status; healthStatus is the status code the
transport returns for the health request. The first component is the list
of requests build emits, in order. -/
def build (b : VaultBuilder) (env : Env) (healthStatus : Nat) :
    List Request × Except BuildError Config :=
  match resolve b env with
  | .error e => ([], .error e)
  | .ok cfg =>
    let req := mkRequest (healthUri cfg) cfg.token
    match health_check healthStatus with
    | .error e => ([req], .error (.health e))
    | .ok () => ([req], .ok cfg)

/-- The caller payload type of the round-trip scenarios in the spec: a
struct with a single password field deriving Deserialize. -/
structure Secret where
  password : String
deriving DecidableEq, Repr

/-- The serde-derived Deserialize instance for Secret. -/
def deserializeSecret (j : Json) : Option Secret := do
  let p ← asString (j.getField "password")
  pure ⟨p⟩

/-- A v1 envelope JSON document whose data member is the object with
password "hunter2"; wrap_info, warnings and auth are absent. -/
def v1ExampleBody : Json :=
  Json.obj
    [("request_id", Json.str "a-request"),
     ("lease_id", Json.str ""),
     ("renewable", Json.bool false),
     ("lease_duration", Json.num 2764800),
     ("data", Json.obj [("password", Json.str "hunter2")])]

/-- A v2 envelope JSON document whose data member wraps the object with
password "hunter2" one level deeper; wrap_info, warnings and auth are
absent. -/
def v2ExampleBody : Json :=
  Json.obj
    [("request_id", Json.str "a-request"),
     ("lease_id", Json.str ""),
     ("renewable", Json.bool false),
     ("lease_duration", Json.num 2764800),
     ("data", Json.obj [("data", Json.obj [("password", Json.str "hunter2")])])]

/-- check_vault_error never produces the VaultStandby variant, whatever the
status code. -/
theorem check_not_standby (c s : Nat) :
    check_vault_error c ≠ Except.error (VaultError.VaultStandby s) := by
  unfold check_vault_error
  split_ifs <;> simp

/-- resolveSecretPath can only fail with the missing-secret-path error. -/
theorem resolveSecretPath_error (b : VaultBuilder) (env : Env) (e : BuildError)
    (h : resolveSecretPath b env = Except.error e) :
    e = BuildError.missingSecretPath := by
  unfold resolveSecretPath at h
  split at h
  · exact absurd h (by simp)
  · split at h
    · exact absurd h (by simp)
    · injection h with h
      exact h.symm

/-- resolvePort can only fail with an invalid-port error. -/
theorem resolvePort_error (b : VaultBuilder) (env : Env) (e : BuildError)
    (h : resolvePort b env = Except.error e) :
    ∃ s, e = BuildError.invalidPort s := by
  unfold resolvePort at h
  split at h
  · exact absurd h (by simp)
  · split at h
    · exact absurd h (by simp)
    · injection h with h
      exact ⟨_, h.symm⟩

/-- resolveToken can only fail with the missing-token error. -/
theorem resolveToken_error (b : VaultBuilder) (env : Env) (e : BuildError)
    (h : resolveToken b env = Except.error e) :
    e = BuildError.missingToken := by
  unfold resolveToken at h
  split at h
  · exact absurd h (by simp)
  · split at h
    · exact absurd h (by simp)
    · injection h with h
      exact h.symm

/-- resolve only fails with one of the three configuration errors, never
with a health error. -/
theorem resolve_error_isConfig (b : VaultBuilder) (env : Env) (e : BuildError)
    (h : resolve b env = Except.error e) : BuildError.isConfig e = true := by
  unfold resolve at h
  split at h
  next e1 heq =>
    injection h with h
    subst h
    rw [resolveSecretPath_error b env _ heq]
    rfl
  next sp heq =>
    split at h
    next e2 heq2 =>
      injection h with h
      subst h
      obtain ⟨s, rfl⟩ := resolvePort_error b env _ heq2
      rfl
    next p heq2 =>
      split at h
      next e3 heq3 =>
        injection h with h
        subst h
        rw [resolveToken_error b env _ heq3]
        rfl
      next t heq3 =>
        exact absurd h (by simp)

/-- Claim C1: check_vault_error is a pure function of the status code,
returning success exactly on 200, Sealed on 503 and 429, the DR-secondary
variant on 472, the standby-performance variant on 473, NotInitialized on
501, InvalidPath on 404 and Unknown on every other code, every error
carrying the original status code. -/
theorem check_vault_error_mapping (c : Nat) :
    (check_vault_error c = Except.ok () ↔ c = 200)
  ∧ ((c = 503 ∨ c = 429) → check_vault_error c = Except.error (VaultError.VaultSealed c))
  ∧ (c = 472 → check_vault_error c = Except.error (VaultError.VaultActiveDRsecondaryNode c))
  ∧ (c = 473 → check_vault_error c = Except.error (VaultError.VaultStandbyPerformanceNode c))
  ∧ (c = 501 → check_vault_error c = Except.error (VaultError.VaultNotInitialized c))
  ∧ (c = 404 → check_vault_error c = Except.error (VaultError.VaultInvalidPath c))
  ∧ (c ≠ 200 → c ≠ 503 → c ≠ 429 → c ≠ 472 → c ≠ 473 → c ≠ 501 → c ≠ 404 →
      check_vault_error c = Except.error (VaultError.Unknown c))
  ∧ (∀ e, check_vault_error c = Except.error e → VaultError.status e = c) := by
  unfold check_vault_error
  split_ifs <;> simp_all [VaultError.status]

/-- Witness for C1: the mapping evaluated at 404 and at the undefined code
777. -/
theorem check_vault_error_mapping_witness :
    check_vault_error 404 = Except.error (VaultError.VaultInvalidPath 404)
  ∧ check_vault_error 777 = Except.error (VaultError.Unknown 777) :=
  ⟨(check_vault_error_mapping 404).2.2.2.2.2.1 rfl,
   (check_vault_error_mapping 777).2.2.2.2.2.2.1
     (by decide) (by decide) (by decide) (by decide) (by decide) (by decide) (by decide)⟩

/-- Claim C9: the VaultStandby variant of the error enum is unreachable:
check_vault_error never returns it, and neither does any operation of the
library (health_check, get_secret, get_secret_v2, build). -/
theorem vault_standby_unreachable (c s : Nat) :
    check_vault_error c ≠ Except.error (VaultError.VaultStandby s)
  ∧ health_check c ≠ Except.error (VaultError.VaultStandby s)
  ∧ (∀ (T : Type) (pT : Json → Option T) (body : Json),
      get_secret pT c body ≠ Except.error (SecretError.vault (VaultError.VaultStandby s))
    ∧ get_secret_v2 pT c body ≠ Except.error (SecretError.vault (VaultError.VaultStandby s)))
  ∧ (∀ (b : VaultBuilder) (env : Env),
      (build b env c).2 ≠ Except.error (BuildError.health (VaultError.VaultStandby s))) := by
  refine ⟨check_not_standby c s, check_not_standby c s, ?_, ?_⟩
  · intro T pT body
    constructor
    · unfold get_secret
      cases hc : check_vault_error c with
      | error e =>
        simp only [hc]
        intro h
        simp only [Except.error.injEq, SecretError.vault.injEq] at h
        exact check_not_standby c s (h ▸ hc)
      | ok u =>
        simp only [hc]
        cases deserializeV1 pT body <;> simp
    · unfold get_secret_v2
      cases hc : check_vault_error c with
      | error e =>
        simp only [hc]
        intro h
        simp only [Except.error.injEq, SecretError.vault.injEq] at h
        exact check_not_standby c s (h ▸ hc)
      | ok u =>
        simp only [hc]
        cases deserializeV2 pT body <;> simp
  · intro b env
    unfold build
    cases hr : resolve b env with
    | error e =>
      have hcfg := resolve_error_isConfig b env e hr
      simp only []
      intro h
      simp only [Except.error.injEq] at h
      rw [h] at hcfg
      simp [BuildError.isConfig] at hcfg
    | ok cfg =>
      unfold health_check
      cases hc : check_vault_error c with
      | error e =>
        simp only [hc]
        intro h
        simp only [Except.error.injEq, BuildError.health.injEq] at h
        exact check_not_standby c s (h ▸ hc)
      | ok u => simp [hc]

/-- Witness for C9: the unreachability instantiated at the documented
standby status code 429. -/
theorem vault_standby_unreachable_witness :
    check_vault_error 429 ≠ Except.error (VaultError.VaultStandby 429) :=
  (vault_standby_unreachable 429 429).1

/-- Claim C2: on a successful (200) response, get_secret returns the inner
data payload of the v1 envelope and get_secret_v2 the doubly-nested
data.data payload of the v2 envelope; in particular the hunter2 round
trips of the spec hold. -/
theorem get_secret_returns_inner_payload {T : Type} (pT : Json → Option T)
    (b1 b2 : Json) (s1 : VaultSchemaV1 T) (s2 : VaultSchemaV2 T)
    (h1 : deserializeV1 pT b1 = some s1) (h2 : deserializeV2 pT b2 = some s2) :
    get_secret pT 200 b1 = Except.ok s1.data
  ∧ get_secret_v2 pT 200 b2 = Except.ok s2.data.data
  ∧ get_secret deserializeSecret 200 v1ExampleBody = Except.ok ⟨"hunter2"⟩
  ∧ get_secret_v2 deserializeSecret 200 v2ExampleBody = Except.ok ⟨"hunter2"⟩ := by
  refine ⟨?_, ?_, rfl, rfl⟩
  · simp [get_secret, check_vault_error, h1]
  · simp [get_secret_v2, check_vault_error, h2]

/-- Witness for C2: the theorem applied to the concrete hunter2 envelopes. -/
theorem get_secret_returns_inner_payload_witness :
    get_secret deserializeSecret 200 v1ExampleBody = Except.ok ⟨"hunter2"⟩ :=
  (get_secret_returns_inner_payload deserializeSecret v1ExampleBody v2ExampleBody
    ⟨"a-request", "", false, 2764800, ⟨"hunter2"⟩, none, none, none⟩
    ⟨"a-request", "", false, 2764800, ⟨⟨"hunter2"⟩⟩, none, none, none⟩
    (by decide) (by decide)).2.2.1

/-- Any status code other than 200 makes check_vault_error fail. -/
theorem check_vault_error_of_ne_200 (st : Nat) (h : st ≠ 200) :
    ∃ e, check_vault_error st = Except.error e := by
  unfold check_vault_error
  split_ifs <;> simp_all

/-- Claim C7: on a non-200 response, both secret-retrieval operations
return the mapped typed error; the response body is never inspected (the
result is the same for every body); in particular a 404 yields the
InvalidPath error. -/
theorem get_secret_non_success_no_parse {T : Type} (pT : Json → Option T)
    (st : Nat) (body : Json) (h : st ≠ 200) :
    (∀ e, check_vault_error st = Except.error e →
      get_secret pT st body = Except.error (SecretError.vault e)
    ∧ get_secret_v2 pT st body = Except.error (SecretError.vault e))
  ∧ (∃ e, get_secret pT st body = Except.error (SecretError.vault e)
       ∧ get_secret_v2 pT st body = Except.error (SecretError.vault e))
  ∧ (∀ body2, get_secret pT st body = get_secret pT st body2
       ∧ get_secret_v2 pT st body = get_secret_v2 pT st body2)
  ∧ get_secret pT 404 body = Except.error (SecretError.vault (VaultError.VaultInvalidPath 404)) := by
  have hmap : ∀ e, check_vault_error st = Except.error e →
      get_secret pT st body = Except.error (SecretError.vault e)
    ∧ get_secret_v2 pT st body = Except.error (SecretError.vault e) := by
    intro e he
    constructor
    · unfold get_secret
      rw [he]
    · unfold get_secret_v2
      rw [he]
  obtain ⟨e, he⟩ := check_vault_error_of_ne_200 st h
  refine ⟨hmap, ⟨e, hmap e he⟩, ?_, rfl⟩
  intro body2
  have hmap2 : get_secret pT st body2 = Except.error (SecretError.vault e)
    ∧ get_secret_v2 pT st body2 = Except.error (SecretError.vault e) := by
    constructor
    · unfold get_secret
      rw [he]
    · unfold get_secret_v2
      rw [he]
  rw [(hmap e he).1, (hmap e he).2, hmap2.1, hmap2.2]
  exact ⟨rfl, rfl⟩

/-- Witness for C7: a 503 response to get_secret yields the Sealed error
for every body, here the empty object. -/
theorem get_secret_non_success_no_parse_witness :
    get_secret deserializeSecret 503 (Json.obj []) =
      Except.error (SecretError.vault (VaultError.VaultSealed 503)) :=
  ((get_secret_non_success_no_parse deserializeSecret 503 (Json.obj [])
    (by decide)).1 (VaultError.VaultSealed 503) rfl).1

/-- Claim C8: get_secret is deterministic: two invocations with the same
resolved configuration (hence the same parameters) and the same Vault-side
response return identical results. -/
theorem get_secret_deterministic {T : Type} (pT : Json → Option T)
    (st : Nat) (body : Json) (r1 r2 : Except SecretError T)
    (h1 : r1 = get_secret pT st body) (h2 : r2 = get_secret pT st body) :
    r1 = r2 :=
  h1.trans h2.symm

/-- Witness for C8: two runs on the hunter2 envelope agree. -/
theorem get_secret_deterministic_witness :
    get_secret deserializeSecret 200 v1ExampleBody =
      get_secret deserializeSecret 200 v1ExampleBody :=
  get_secret_deterministic deserializeSecret 200 v1ExampleBody _ _ rfl rfl

/-- asString succeeds exactly on a present JSON string. -/
theorem asString_eq_some (o : Option Json) (s : String) :
    asString o = some s ↔ o = some (Json.str s) := by
  cases o with
  | none => simp [asString]
  | some j => cases j <;> simp [asString]

/-- asBool succeeds exactly on a present JSON boolean. -/
theorem asBool_eq_some (o : Option Json) (b : Bool) :
    asBool o = some b ↔ o = some (Json.bool b) := by
  cases o with
  | none => simp [asBool]
  | some j => cases j <;> simp [asBool]

/-- asU32 only succeeds on a present JSON number. -/
theorem asU32_eq_some (o : Option Json) (n : Nat) (h : asU32 o = some n) :
    ∃ m : Int, o = some (Json.num m) := by
  cases o with
  | none => simp [asU32] at h
  | some j => cases j <;> simp_all [asU32]

/-- A successful v1 envelope deserialization pins down the five required
members of the body: request_id and lease_id as strings, renewable as a
boolean, lease_duration as a number, and a data member on which the
payload deserializer succeeds. -/
theorem deserializeV1_fields {T : Type} (pT : Json → Option T) (j : Json)
    (s : VaultSchemaV1 T) (h : deserializeV1 pT j = some s) :
    j.getField "request_id" = some (Json.str s.request_id)
  ∧ j.getField "lease_id" = some (Json.str s.lease_id)
  ∧ j.getField "renewable" = some (Json.bool s.renewable)
  ∧ (∃ n : Int, j.getField "lease_duration" = some (Json.num n))
  ∧ (∃ d, j.getField "data" = some d ∧ pT d = some s.data) := by
  simp only [deserializeV1, bind, Option.bind_eq_some, Option.pure_def,
    Option.some.injEq] at h
  obtain ⟨rid, hrid, lid, hlid, ren, hren, ld, hld, d, hd, data, hdata,
    wi, hwi, wa, hwa, au, hau, hs⟩ := h
  subst hs
  refine ⟨(asString_eq_some _ _).mp hrid, (asString_eq_some _ _).mp hlid,
    (asBool_eq_some _ _).mp hren, asU32_eq_some _ _ hld, d, hd, hdata⟩

/-- A successful v2 envelope deserialization pins down the same five
required members, the data member deserializing through the Data wrapper. -/
theorem deserializeV2_fields {T : Type} (pT : Json → Option T) (j : Json)
    (s : VaultSchemaV2 T) (h : deserializeV2 pT j = some s) :
    j.getField "request_id" = some (Json.str s.request_id)
  ∧ j.getField "lease_id" = some (Json.str s.lease_id)
  ∧ j.getField "renewable" = some (Json.bool s.renewable)
  ∧ (∃ n : Int, j.getField "lease_duration" = some (Json.num n))
  ∧ (∃ d, j.getField "data" = some d ∧ deserializeData pT d = some s.data) := by
  simp only [deserializeV2, bind, Option.bind_eq_some, Option.pure_def,
    Option.some.injEq] at h
  obtain ⟨rid, hrid, lid, hlid, ren, hren, ld, hld, d, hd, data, hdata,
    wi, hwi, wa, hwa, au, hau, hs⟩ := h
  subst hs
  refine ⟨(asString_eq_some _ _).mp hrid, (asString_eq_some _ _).mp hlid,
    (asBool_eq_some _ _).mp hren, asU32_eq_some _ _ hld, d, hd, hdata⟩

/-- Claim C10: envelope deserialization (v1 and v2) succeeds only when
request_id, lease_id, renewable, lease_duration and data are present with
matching types; a body missing any of them fails; wrap_info, warnings and
auth may be absent without failure, as the hunter2 bodies (which omit all
three) show. -/
theorem envelope_required_fields {T : Type} (pT : Json → Option T) (j : Json) :
    ((j.getField "request_id" = none ∨ j.getField "lease_id" = none ∨
      j.getField "renewable" = none ∨ j.getField "lease_duration" = none ∨
      j.getField "data" = none) →
      deserializeV1 pT j = none ∧ deserializeV2 pT j = none)
  ∧ (∀ s : VaultSchemaV1 T, deserializeV1 pT j = some s →
      j.getField "request_id" = some (Json.str s.request_id)
    ∧ j.getField "lease_id" = some (Json.str s.lease_id)
    ∧ j.getField "renewable" = some (Json.bool s.renewable)
    ∧ (∃ n : Int, j.getField "lease_duration" = some (Json.num n))
    ∧ (∃ d, j.getField "data" = some d ∧ pT d = some s.data))
  ∧ (∀ s : VaultSchemaV2 T, deserializeV2 pT j = some s →
      j.getField "request_id" = some (Json.str s.request_id)
    ∧ j.getField "lease_id" = some (Json.str s.lease_id)
    ∧ j.getField "renewable" = some (Json.bool s.renewable)
    ∧ (∃ n : Int, j.getField "lease_duration" = some (Json.num n))
    ∧ (∃ d, j.getField "data" = some d ∧ deserializeData pT d = some s.data))
  ∧ deserializeV1 deserializeSecret v1ExampleBody =
      some ⟨"a-request", "", false, 2764800, ⟨"hunter2"⟩, none, none, none⟩
  ∧ deserializeV2 deserializeSecret v2ExampleBody =
      some ⟨"a-request", "", false, 2764800, ⟨⟨"hunter2"⟩⟩, none, none, none⟩ := by
  refine ⟨?_, fun s hs => deserializeV1_fields pT j s hs,
    fun s hs => deserializeV2_fields pT j s hs, by decide, by decide⟩
  intro hmiss
  constructor
  · rw [Option.eq_none_iff_forall_not_mem]
    intro s hs
    rw [Option.mem_def] at hs
    have hf := deserializeV1_fields pT j s hs
    rcases hmiss with h | h | h | h | h <;> simp_all
  · rw [Option.eq_none_iff_forall_not_mem]
    intro s hs
    rw [Option.mem_def] at hs
    have hf := deserializeV2_fields pT j s hs
    rcases hmiss with h | h | h | h | h <;> simp_all

/-- Witness for C10: an envelope body lacking the data member fails v1
deserialization, and the hunter2 body without the optional members
succeeds. -/
theorem envelope_required_fields_witness :
    deserializeV1 deserializeSecret (Json.obj [("request_id", Json.str "x")]) = none
  ∧ deserializeV1 deserializeSecret v1ExampleBody =
      some ⟨"a-request", "", false, 2764800, ⟨"hunter2"⟩, none, none, none⟩ :=
  ⟨((envelope_required_fields deserializeSecret
      (Json.obj [("request_id", Json.str "x")])).1
      (Or.inr (Or.inr (Or.inr (Or.inr rfl))))).1,
   (envelope_required_fields deserializeSecret (Json.obj [])).2.2.2.1⟩

/-- When token is absent from both the builder and the environment, resolve
fails with a configuration error (missingToken when reached, or an earlier
configuration failure). -/
theorem resolve_token_missing (b : VaultBuilder) (env : Env)
    (h1 : b.token = none) (h2 : env.vault_token = none) :
    ∃ e, resolve b env = Except.error e ∧ BuildError.isConfig e = true := by
  unfold resolve
  cases hsp : resolveSecretPath b env with
  | error e =>
    refine ⟨e, rfl, ?_⟩
    rw [resolveSecretPath_error b env e hsp]
    rfl
  | ok sp =>
    cases hp : resolvePort b env with
    | error e =>
      refine ⟨e, rfl, ?_⟩
      obtain ⟨s, rfl⟩ := resolvePort_error b env e hp
      rfl
    | ok p =>
      have htok : resolveToken b env = Except.error BuildError.missingToken := by
        simp [resolveToken, h1, h2]
      rw [htok]
      exact ⟨BuildError.missingToken, rfl, rfl⟩

/-- When the port comes from the environment and does not parse as a u16,
resolve fails with a configuration error (invalidPort when reached, or an
earlier configuration failure). -/
theorem resolve_port_invalid (b : VaultBuilder) (env : Env) (s : String)
    (h1 : b.port = none) (h2 : env.vault_port = some s)
    (h3 : parseU16 s = none) :
    ∃ e, resolve b env = Except.error e ∧ BuildError.isConfig e = true := by
  unfold resolve
  cases hsp : resolveSecretPath b env with
  | error e =>
    refine ⟨e, rfl, ?_⟩
    rw [resolveSecretPath_error b env e hsp]
    rfl
  | ok sp =>
    have hp : resolvePort b env = Except.error (BuildError.invalidPort s) := by
      simp [resolvePort, h1, h2, h3]
    rw [hp]
    exact ⟨BuildError.invalidPort s, rfl, rfl⟩

/-- Claim C4: a token supplied neither explicitly nor through VAULT_TOKEN
makes build fail at resolution time with the distinct missing-token
configuration error, and a missing secret path likewise with the distinct
missing-secret-path error; the two diagnostics differ from each other and
from every other failure mode. -/
theorem build_missing_required_config (b : VaultBuilder) (env : Env) (st : Nat) :
    (b.secret_path = none → env.vault_secret_path = none →
      resolve b env = Except.error BuildError.missingSecretPath
    ∧ (build b env st).2 = Except.error BuildError.missingSecretPath)
  ∧ (∀ sp p, b.secret_path = some sp → b.port = some p →
      b.token = none → env.vault_token = none →
      resolve b env = Except.error BuildError.missingToken
    ∧ (build b env st).2 = Except.error BuildError.missingToken)
  ∧ (b.token = none → env.vault_token = none →
      ∃ e, (build b env st).2 = Except.error e ∧ BuildError.isConfig e = true)
  ∧ BuildError.missingToken ≠ BuildError.missingSecretPath
  ∧ BuildError.message BuildError.missingToken ≠ BuildError.message BuildError.missingSecretPath
  ∧ BuildError.isConfig BuildError.missingToken = true
  ∧ BuildError.isConfig BuildError.missingSecretPath = true
  ∧ (∀ e, BuildError.isConfig (BuildError.health e) = false) := by
  refine ⟨?_, ?_, ?_, by decide, by decide, rfl, rfl, fun e => rfl⟩
  · intro h1 h2
    have hr : resolve b env = Except.error BuildError.missingSecretPath := by
      simp [resolve, resolveSecretPath, h1, h2]
    exact ⟨hr, by simp [build, hr]⟩
  · intro sp p h1 h2 h3 h4
    have hr : resolve b env = Except.error BuildError.missingToken := by
      simp [resolve, resolveSecretPath, resolvePort, resolveToken, h1, h2, h3, h4]
    exact ⟨hr, by simp [build, hr]⟩
  · intro h1 h2
    obtain ⟨e, he, hc⟩ := resolve_token_missing b env h1 h2
    exact ⟨e, by simp [build, he], hc⟩

/-- Witness for C4: the all-empty builder in an empty environment fails
with the missing-secret-path diagnostic. -/
theorem build_missing_required_config_witness :
    resolve ⟨none, none, none, none, none⟩ ⟨none, none, none, none, none⟩ =
      Except.error BuildError.missingSecretPath :=
  ((build_missing_required_config ⟨none, none, none, none, none⟩
    ⟨none, none, none, none, none⟩ 200).1 rfl rfl).1

/-- Claim C5: a port string (necessarily from the environment, since the
explicit setter is already 16-bit typed) that is non-numeric or out of the
u16 range fails the build with a configuration error. -/
theorem build_invalid_port (b : VaultBuilder) (env : Env) (st : Nat) (s : String) :
    (∀ n, parseU16 s = some n → n < 65536)
  ∧ parseU16 "abc" = none
  ∧ parseU16 "65536" = none
  ∧ parseU16 "" = none
  ∧ parseU16 "8200" = some 8200
  ∧ (∀ sp, b.secret_path = some sp → b.port = none →
      env.vault_port = some s → parseU16 s = none →
      resolve b env = Except.error (BuildError.invalidPort s)
    ∧ (build b env st).2 = Except.error (BuildError.invalidPort s)
    ∧ BuildError.isConfig (BuildError.invalidPort s) = true)
  ∧ (b.port = none → env.vault_port = some s → parseU16 s = none →
      ∃ e, (build b env st).2 = Except.error e ∧ BuildError.isConfig e = true) := by
  refine ⟨?_, by decide, by decide, by decide, by decide, ?_, ?_⟩
  · intro n hn
    simp only [parseU16] at hn
    split_ifs at hn
    simp_all
  · intro sp h1 h2 h3 h4
    have hr : resolve b env = Except.error (BuildError.invalidPort s) := by
      simp [resolve, resolveSecretPath, resolvePort, h1, h2, h3, h4]
    exact ⟨hr, by simp [build, hr], rfl⟩
  · intro h1 h2 h3
    obtain ⟨e, he, hc⟩ := resolve_port_invalid b env s h1 h2 h3
    exact ⟨e, by simp [build, he], hc⟩

/-- Witness for C5: the non-numeric environment port "abc" fails the build
of a builder that only sets secret_path and token. -/
theorem build_invalid_port_witness :
    resolve ⟨some "sp", none, none, some "tok", none⟩
      ⟨none, none, some "abc", none, none⟩ =
      Except.error (BuildError.invalidPort "abc") :=
  ((build_invalid_port ⟨some "sp", none, none, some "tok", none⟩
    ⟨none, none, some "abc", none, none⟩ 200 "abc").2.2.2.2.2.1
    "sp" rfl rfl rfl (by decide)).1

/-- Claim C6: every field resolves as explicit value first, else
environment variable, else default; with all optional fields omitted and
the environment empty, address resolves to "127.0.0.1", port to 8200 and
protocol to "http". -/
theorem config_resolution_order (b : VaultBuilder) (env : Env) (cfg : Config)
    (h : resolve b env = Except.ok cfg) :
    (∀ a, b.address = some a → cfg.address = a)
  ∧ (∀ a, b.address = none → env.vault_address = some a → cfg.address = a)
  ∧ (b.address = none → env.vault_address = none → cfg.address = "127.0.0.1")
  ∧ (∀ p, b.port = some p → cfg.port = p)
  ∧ (∀ s p, b.port = none → env.vault_port = some s → parseU16 s = some p → cfg.port = p)
  ∧ (b.port = none → env.vault_port = none → cfg.port = 8200)
  ∧ (∀ pr, b.protocol = some pr → cfg.protocol = pr)
  ∧ (∀ pr, b.protocol = none → env.vault_protocol = some pr → cfg.protocol = pr)
  ∧ (b.protocol = none → env.vault_protocol = none → cfg.protocol = "http")
  ∧ (∀ sp, b.secret_path = some sp → cfg.secret_path = sp)
  ∧ (∀ sp, b.secret_path = none → env.vault_secret_path = some sp → cfg.secret_path = sp)
  ∧ (∀ t, b.token = some t → cfg.token = t)
  ∧ (∀ t, b.token = none → env.vault_token = some t → cfg.token = t)
  ∧ resolve ⟨some "sp", none, none, some "tok", none⟩ ⟨none, none, none, none, none⟩ =
      Except.ok ⟨"sp", "127.0.0.1", 8200, "tok", "http"⟩ := by
  unfold resolve at h
  split at h
  · exact absurd h (by simp)
  next sp hsp =>
    split at h
    · exact absurd h (by simp)
    next port hport =>
      split at h
      · exact absurd h (by simp)
      next tok htok =>
        injection h with h
        subst h
        refine ⟨?_, ?_, ?_, ?_, ?_, ?_, ?_, ?_, ?_, ?_, ?_, ?_, ?_, rfl⟩
        · intro a ha
          simp [ha]
        · intro a h1 h2
          simp [h1, h2]
        · intro h1 h2
          simp [h1, h2]
        · intro p hp
          unfold resolvePort at hport
          rw [hp] at hport
          simp at hport
          simp [hport]
        · intro s p h1 h2 hp
          unfold resolvePort at hport
          rw [h1] at hport
          simp only [h2, Option.getD_some] at hport
          rw [hp] at hport
          simp at hport
          simp [hport]
        · intro h1 h2
          unfold resolvePort at hport
          rw [h1] at hport
          simp only [h2, Option.getD_none] at hport
          rw [show parseU16 "8200" = some 8200 from rfl] at hport
          simp at hport
          simp [hport]
        · intro pr hp
          simp [hp]
        · intro pr h1 h2
          simp [h1, h2]
        · intro h1 h2
          simp [h1, h2]
        · intro s h1
          unfold resolveSecretPath at hsp
          rw [h1] at hsp
          simp at hsp
          simp [hsp]
        · intro s h1 h2
          unfold resolveSecretPath at hsp
          rw [h1] at hsp
          simp only [h2] at hsp
          simp at hsp
          simp [hsp]
        · intro t h1
          unfold resolveToken at htok
          rw [h1] at htok
          simp at htok
          simp [htok]
        · intro t h1 h2
          unfold resolveToken at htok
          rw [h1] at htok
          simp only [h2] at htok
          simp at htok
          simp [htok]

/-- Witness for C6: the defaulted configuration of a builder that only
sets secret_path and token in an empty environment. -/
theorem config_resolution_order_witness :
    Config.address ⟨"sp", "127.0.0.1", 8200, "tok", "http"⟩ = "127.0.0.1" :=
  (config_resolution_order ⟨some "sp", none, none, some "tok", none⟩
    ⟨none, none, none, none, none⟩ ⟨"sp", "127.0.0.1", 8200, "tok", "http"⟩
    rfl).2.2.1 rfl rfl

/-- Claim C3: build always performs the health check against
/v1/sys/health (the request trace of a resolved build is exactly the
single health request, so no secret-retrieval request is ever issued), a
non-200 health status aborts construction with the mapped typed error, and
in particular a 503 yields the Sealed error. -/
theorem build_health_check_gate (b : VaultBuilder) (env : Env) (st : Nat)
    (cfg : Config) (hres : resolve b env = Except.ok cfg) :
    (build b env st).1 = [mkRequest (healthUri cfg) cfg.token]
  ∧ (∀ r, r ∈ (build b env st).1 → r.uri = healthUri cfg)
  ∧ (∀ e, check_vault_error st = Except.error e →
      (build b env st).2 = Except.error (BuildError.health e))
  ∧ (st ≠ 200 → ∃ e, check_vault_error st = Except.error e ∧
      (build b env st).2 = Except.error (BuildError.health e))
  ∧ ((build b env st).2 = Except.ok cfg ↔ st = 200)
  ∧ (st = 503 → (build b env st).2 =
      Except.error (BuildError.health (VaultError.VaultSealed 503))) := by
  unfold build health_check
  rw [hres]
  refine ⟨?_, ?_, ?_, ?_, ?_, ?_⟩
  · cases hc : check_vault_error st <;> simp [hc]
  · intro r hr
    cases hc : check_vault_error st <;> simp [hc] at hr <;> simp [hr, mkRequest]
  · intro e he
    rw [he]
  · intro hne
    obtain ⟨e, he⟩ := check_vault_error_of_ne_200 st hne
    rw [he]
    exact ⟨e, rfl, rfl⟩
  · constructor
    · intro h2
      by_contra hne
      obtain ⟨e, he⟩ := check_vault_error_of_ne_200 st hne
      rw [he] at h2
      simp at h2
    · intro h2
      subst h2
      rw [show check_vault_error 200 = Except.ok () from rfl]
  · intro h2
    subst h2
    rw [show check_vault_error 503 = Except.error (VaultError.VaultSealed 503) from rfl]

/-- Witness for C3: a 503 health response makes the defaulted build fail
with the Sealed error. -/
theorem build_health_check_gate_witness :
    (build ⟨some "sp", none, none, some "tok", none⟩
      ⟨none, none, none, none, none⟩ 503).2 =
      Except.error (BuildError.health (VaultError.VaultSealed 503)) :=
  (build_health_check_gate ⟨some "sp", none, none, some "tok", none⟩
    ⟨none, none, none, none, none⟩ 503 ⟨"sp", "127.0.0.1", 8200, "tok", "http"⟩
    rfl).2.2.2.2.2 rfl

end Coult
